import Mathlib

/-!
Verification of the offset-tracking core of the `kafka-cg` consumer-group
library (`consumergroup/consumer_group.go`).

The embedding models:
* `partitionOffsetTracker` and its operations `markAsProcessed`, `commit`,
  `waitForOffset` (the Go struct's `done` channel is modelled by the boolean
  `doneClosed`; closing the channel sets it);
* `zookeeperOffsetManager`'s offsets map (`topic → partition → tracker`,
  an association list mirroring the two-level Go map) and the operations
  `InitializePartition`, `FinalizePartition`, `MarkAsProcessed`,
  `MarkAsConsumed`, `commitOffset`, `Close`;
* the broker-stream opening retry logic of `ConsumerGroup.consumePartition`;
* the shutdown error flow of `ConsumerGroup.Close`.

External effects (the ZooKeeper write performed by `CommitOffset`, the
result of `FetchOffset`, the broker's answer to `ConsumePartition`, the
outcome of the timed wait in `waitForOffset`) are passed in as explicit
parameters, and functions additionally return a record of the external
calls they made, so that "the committer was invoked with x" and "the write
value was x+1" are statable.

Offsets are Go `int64`; the code only compares and adds 1, never
overflows in practice, so they are modelled as `Int`.
-/

namespace ConsumerGroupCG

/-- The error values of the consumergroup package that the modelled code
paths can produce.  `external c` stands for an arbitrary error coming back
from a collaborator (ZooKeeper client, Sarama consumer). -/
inductive CGError where
  | offsetTooLarge
  | offsetBackwards
  | noOffsetToCommit
  | topicPartitionNotFound
  | uncleanClose
  | alreadyClosing
  | finalizeCommitFailed (e : CGError)
  | external (code : Nat)
deriving DecidableEq, Repr

/-- `partitionOffsetTracker`: the per-(topic,partition) in-memory state.
The Go struct's `done` channel is modelled by `doneClosed`; `close(done)`
sets it to `true`. -/
structure Tracker where
  waitingForOffset : Int
  highestMarkedAsProcessedOffset : Int
  lastConsumedOffset : Int
  lastCommittedOffset : Int
  doneClosed : Bool
deriving DecidableEq, Repr

/-- `partitionOffsetTracker.markAsProcessed`.  Returns the Go error
(`none` = nil) and the tracker state after the call. -/
def markAsProcessed (pot : Tracker) (offset : Int) : Option CGError × Tracker :=
  if offset > pot.lastConsumedOffset + 1 then
    (some .offsetTooLarge, pot)
  else if offset > pot.highestMarkedAsProcessedOffset then
    let pot1 := { pot with highestMarkedAsProcessedOffset := offset }
    if pot1.waitingForOffset = pot1.highestMarkedAsProcessedOffset then
      (none, { pot1 with doneClosed := true })
    else
      (none, pot1)
  else
    (some .offsetBackwards, pot)

/-- `partitionOffsetTracker.commit`.  The committer is a pure function
returning the Go error of the external call (`none` = nil).  The third
component records the arguments of the committer invocations the call
performed, in order, so claims about "the committer is invoked" are
statable. -/
def commit (pot : Tracker) (committer : Int → Option CGError) :
    Option CGError × Tracker × List Int :=
  if pot.highestMarkedAsProcessedOffset > pot.lastCommittedOffset then
    match committer pot.highestMarkedAsProcessedOffset with
    | some e => (some e, pot, [pot.highestMarkedAsProcessedOffset])
    | none =>
        (none,
         { pot with lastCommittedOffset := pot.highestMarkedAsProcessedOffset },
         [pot.highestMarkedAsProcessedOffset])
  else
    (some .noOffsetToCommit, pot, [])

/-- The body of `zookeeperOffsetManager.MarkAsConsumed` once the tracker is
found: `p.lastConsumedOffset = offset`. -/
def markAsConsumedTracker (pot : Tracker) (offset : Int) : Tracker :=
  { pot with lastConsumedOffset := offset }

/-- `partitionOffsetTracker.waitForOffset`: whether a real wait happens and
the tracker state after the call.  `waitReached` supplies the outcome of
the timed race (completion signal vs. deadline), which is decided by
concurrent `markAsProcessed` calls outside this model; it is returned
unchanged when a wait happens. -/
def waitForOffset (pot : Tracker) (offset : Int) (waitReached : Bool) :
    Bool × Tracker :=
  if offset > pot.highestMarkedAsProcessedOffset then
    (waitReached, { pot with waitingForOffset := offset })
  else
    (true, pot)

/-- The committer closure installed by `zookeeperOffsetManager.commitOffset`:
for `offset ≥ 0` it performs the coordination-service write of `offset + 1`
(whose result is `write (offset+1)`), otherwise it does nothing and
succeeds.  The second component is the value written, `none` when no write
happened. -/
def installedCommitter (write : Int → Option CGError) (offset : Int) :
    Option CGError × Option Int :=
  if offset ≥ 0 then (write (offset + 1), some (offset + 1)) else (none, none)

/-- `zookeeperOffsetManager.commitOffset` without the logging: runs
`tracker.commit` with the installed committer.  Returns the error, the
tracker after the call, and the list of values written to the coordination
service. -/
def commitOffset (write : Int → Option CGError) (tracker : Tracker) :
    Option CGError × Tracker × List Int :=
  let r := commit tracker (fun offset => (installedCommitter write offset).1)
  (r.1, r.2.1,
   (r.2.2.filterMap (fun offset => (installedCommitter write offset).2)))

/-! ## The offsets map (`offsetsMap = map[string]map[int32]*partitionOffsetTracker`)

Association lists model the two-level Go map; `insert` replaces the first
binding of the key (or appends), `delete` removes the key's bindings,
matching Go map assignment and `delete`. -/

/-- `topicOffsets`: partition → tracker. -/
abbrev TopicOffsets := List (Int × Tracker)

/-- `offsetsMap`: topic → partition → tracker. -/
abbrev OffsetsMap := List (String × TopicOffsets)

/-- Go map read `zom.offsets[topic]` (`none` = key absent / nil map). -/
def lookupTO (m : OffsetsMap) (topic : String) : Option TopicOffsets :=
  match m with
  | [] => none
  | (t, v) :: rest => if t = topic then some v else lookupTO rest topic

/-- Go map assignment `zom.offsets[topic] = v`. -/
def insertTO (m : OffsetsMap) (topic : String) (v : TopicOffsets) : OffsetsMap :=
  match m with
  | [] => [(topic, v)]
  | (t, w) :: rest =>
      if t = topic then (t, v) :: rest else (t, w) :: insertTO rest topic v

/-- Go map read `tos[partition]` on a `topicOffsets` map. -/
def lookupPT (tos : TopicOffsets) (partition : Int) : Option Tracker :=
  match tos with
  | [] => none
  | (p, tr) :: rest => if p = partition then some tr else lookupPT rest partition

/-- Go map assignment `tos[partition] = tracker`. -/
def insertPT (tos : TopicOffsets) (partition : Int) (tracker : Tracker) :
    TopicOffsets :=
  match tos with
  | [] => [(partition, tracker)]
  | (p, tr) :: rest =>
      if p = partition then (p, tracker) :: rest
      else (p, tr) :: insertPT rest partition tracker

/-- Go `delete(tos, partition)`. -/
def deletePT (tos : TopicOffsets) (partition : Int) : TopicOffsets :=
  tos.filter (fun e => e.1 ≠ partition)

/-- Read `zom.offsets[topic][partition]`; `none` when either level misses. -/
def lookupTracker (m : OffsetsMap) (topic : String) (partition : Int) :
    Option Tracker :=
  (lookupTO m topic).bind (fun tos => lookupPT tos partition)

/-- `zom.offsets[topic][partition] = tracker` (the topic-level map is
created when absent, as `InitializePartition` does). -/
def insertTracker (m : OffsetsMap) (topic : String) (partition : Int)
    (tracker : Tracker) : OffsetsMap :=
  insertTO m topic (insertPT ((lookupTO m topic).getD []) partition tracker)

/-- `delete(zom.offsets[topic], partition)`: a no-op when the topic-level
map is absent (Go `delete` on a nil map). -/
def deleteTracker (m : OffsetsMap) (topic : String) (partition : Int) :
    OffsetsMap :=
  match lookupTO m topic with
  | none => m
  | some tos => insertTO m topic (deletePT tos partition)

/-! ## `zookeeperOffsetManager` operations -/

/-- The tracker literal built by `InitializePartition`: the three offset
fields are `nextOffset - 1`; `waitingForOffset` gets Go's zero value `0`;
the fresh `done` channel is open. -/
def initialTracker (nextOffset : Int) : Tracker :=
  { waitingForOffset := 0
    highestMarkedAsProcessedOffset := nextOffset - 1
    lastCommittedOffset := nextOffset - 1
    lastConsumedOffset := nextOffset - 1
    doneClosed := false }

/-- `zookeeperOffsetManager.InitializePartition`.  `fetch` is the result of
`zom.cg.group.FetchOffset(topic, partition)` (the kazoo client: `-1` when
no offset is stored, an error on RPC failure; Go returns the pair
`(0, err)` in the error case). -/
def InitializePartition (m : OffsetsMap) (topic : String) (partition : Int)
    (fetch : Except CGError Int) : (Except CGError Int) × OffsetsMap :=
  let m1 := if (lookupTO m topic).isNone then insertTO m topic [] else m
  match fetch with
  | .error e => (.error e, m1)
  | .ok nextOffset =>
      (.ok nextOffset, insertTracker m1 topic partition (initialTracker nextOffset))

/-- `zookeeperOffsetManager.MarkAsProcessed`. -/
def MarkAsProcessed (m : OffsetsMap) (topic : String) (partition : Int)
    (offset : Int) : Option CGError × OffsetsMap :=
  match lookupTracker m topic partition with
  | some pot =>
      let r := markAsProcessed pot offset
      (r.1, insertTracker m topic partition r.2)
  | none => (some .topicPartitionNotFound, m)

/-- `zookeeperOffsetManager.MarkAsConsumed`. -/
def MarkAsConsumed (m : OffsetsMap) (topic : String) (partition : Int)
    (offset : Int) : Option CGError × OffsetsMap :=
  match lookupTracker m topic partition with
  | some pot =>
      (none, insertTracker m topic partition (markAsConsumedTracker pot offset))
  | none => (some .topicPartitionNotFound, m)

/-- Outcome of `FinalizePartition`: the returned error, the offsets map
after the call, whether `waitForOffset` was entered (a real timed wait),
and whether `commitOffset` was invoked. -/
structure FinalizeOutcome where
  result : Option CGError
  offsets : OffsetsMap
  waited : Bool
  committed : Bool
deriving DecidableEq, Repr

/-- `zookeeperOffsetManager.FinalizePartition`.  `waitReached` supplies the
outcome of the timed wait (see `waitForOffset`); `write` is the
coordination-service write.  Returns `none` when Go would dereference a nil
tracker (the partition was never initialized). -/
def FinalizePartition (m : OffsetsMap) (topic : String) (partition : Int)
    (lastOffset : Int) (waitReached : Bool) (write : Int → Option CGError) :
    Option FinalizeOutcome :=
  match lookupTracker m topic partition with
  | none => none
  | some tracker =>
      if lastOffset ≥ 0 then
        let waited := lastOffset - tracker.highestMarkedAsProcessedOffset > 0
        let tracker1 :=
          if waited then (waitForOffset tracker lastOffset waitReached).2
          else tracker
        let c := commitOffset write tracker1
        if c.1 ≠ none ∧ c.1 ≠ some .noOffsetToCommit then
          some { result := some (.finalizeCommitFailed ((c.1).getD .noOffsetToCommit))
                 offsets := insertTracker m topic partition c.2.1
                 waited := waited
                 committed := true }
        else
          some { result := none
                 offsets := deleteTracker (insertTracker m topic partition c.2.1)
                              topic partition
                 waited := waited
                 committed := true }
      else
        some { result := none
               offsets := deleteTracker m topic partition
               waited := false
               committed := false }

/-- `zookeeperOffsetManager.Close` after the committer task has exited:
scan the offsets map; any topic whose partition map is non-empty makes the
result `UncleanClose`. -/
def zomClose (m : OffsetsMap) : Option CGError :=
  if m.any (fun e => e.2.length > 0) then some .uncleanClose else none

/-! ## `ConsumerGroup.consumePartition`: opening the broker stream -/

/-- `sarama.OffsetNewest`. -/
def OffsetNewest : Int := -1

/-- `sarama.OffsetOldest`. -/
def OffsetOldest : Int := -2

/-- The errors `sarama.Consumer.ConsumePartition` can return, as the retry
logic distinguishes them. -/
inductive OpenError where
  | offsetOutOfRange
  | other (code : Nat)
deriving DecidableEq, Repr

/-- Outcome of the stream-opening section of `consumePartition`:
the offsets passed to `ConsumePartition`, in order, and whether a stream
was obtained (`false` = the goroutine returns, terminal for this
partition in this generation). -/
structure OpenOutcome where
  attempts : List Int
  ok : Bool
deriving DecidableEq, Repr

/-- The stream-opening section of `ConsumerGroup.consumePartition`
(lines 414-440): one call at `startOffset`, one policy-driven retry when
the broker answers `OffsetOutOfRange`, any remaining error is terminal.
`initial` is `cg.config.Offsets.Initial`; `openRes` is the broker's answer
for each offset (`none` = success). -/
def openPartitionStream (initial : Int) (openRes : Int → Option OpenError)
    (startOffset : Int) : OpenOutcome :=
  match openRes startOffset with
  | none => { attempts := [startOffset], ok := true }
  | some .offsetOutOfRange =>
      let retryOffset := if initial = OffsetOldest then OffsetOldest else OffsetNewest
      match openRes retryOffset with
      | none => { attempts := [startOffset, retryOffset], ok := true }
      | some _ => { attempts := [startOffset, retryOffset], ok := false }
  | some (.other _) => { attempts := [startOffset], ok := false }

/-! ## `ConsumerGroup.Close` -/

/-- The shutdown-error flow of `ConsumerGroup.Close`.  `alreadyClosed`
is whether `singleShutdown.Do` has already run (then the body is skipped
and the initial `AlreadyClosing` is returned).  Each parameter is the
error of the corresponding call inside the body (`none` = nil).  The Go
variable `shutdownError` is reassigned at each step; each `let` below
shadows the previous binding exactly as the Go assignments overwrite. -/
def cgClose (alreadyClosed : Bool) (offsetManagerCloseErr : Option CGError)
    (deregisterErr : Option CGError) (consumerCloseErr : Option CGError) :
    Option CGError :=
  let shutdownError : Option CGError := some .alreadyClosing
  if alreadyClosed then shutdownError
  else
    let shutdownError : Option CGError := none
    let _ := shutdownError
    let _ := offsetManagerCloseErr
    let shutdownError := deregisterErr
    let _ := shutdownError
    let shutdownError := consumerCloseErr
    shutdownError

/-! ## Invariant predicates -/

/-- The offset ordering exactly as the specification states it:
`lastCommitted ≤ highestProcessed ≤ lastConsumed`. -/
def specOffsetOrder (t : Tracker) : Prop :=
  t.lastCommittedOffset ≤ t.highestMarkedAsProcessedOffset ∧
  t.highestMarkedAsProcessedOffset ≤ t.lastConsumedOffset

/-- The ordering the code actually maintains:
`lastCommitted ≤ highestProcessed ≤ lastConsumed + 1` (a processed mark of
`lastConsumed + 1` is accepted by `markAsProcessed`). -/
def offsetOrderInv (t : Tracker) : Prop :=
  t.lastCommittedOffset ≤ t.highestMarkedAsProcessedOffset ∧
  t.highestMarkedAsProcessedOffset ≤ t.lastConsumedOffset + 1

instance (t : Tracker) : Decidable (specOffsetOrder t) := by
  unfold specOffsetOrder; infer_instance

instance (t : Tracker) : Decidable (offsetOrderInv t) := by
  unfold offsetOrderInv; infer_instance

/-! ## Map lemmas -/

theorem lookupTO_insertTO_self :
    ∀ (m : OffsetsMap) (topic : String) (v : TopicOffsets),
      lookupTO (insertTO m topic v) topic = some v
  | [], _, _ => by simp [insertTO, lookupTO]
  | (t, w) :: rest, topic, v => by
      by_cases h : t = topic
      · simp [insertTO, lookupTO, h]
      · simp [insertTO, lookupTO, h, lookupTO_insertTO_self rest topic v]

theorem lookupPT_insertPT_self :
    ∀ (tos : TopicOffsets) (partition : Int) (tr : Tracker),
      lookupPT (insertPT tos partition tr) partition = some tr
  | [], _, _ => by simp [insertPT, lookupPT]
  | (p, w) :: rest, partition, tr => by
      by_cases h : p = partition
      · simp [insertPT, lookupPT, h]
      · simp [insertPT, lookupPT, h, lookupPT_insertPT_self rest partition tr]

theorem lookupPT_deletePT_self (tos : TopicOffsets) (partition : Int) :
    lookupPT (deletePT tos partition) partition = none := by
  induction tos with
  | nil => simp [deletePT, lookupPT]
  | cons e rest ih =>
      obtain ⟨p, tr⟩ := e
      by_cases h : p = partition
      · simpa [deletePT, h] using ih
      · simpa [deletePT, lookupPT, h] using ih

theorem lookupTracker_insertTracker_self (m : OffsetsMap) (topic : String)
    (partition : Int) (tr : Tracker) :
    lookupTracker (insertTracker m topic partition tr) topic partition = some tr := by
  simp [lookupTracker, insertTracker, lookupTO_insertTO_self, lookupPT_insertPT_self]

theorem lookupTracker_deleteTracker_self (m : OffsetsMap) (topic : String)
    (partition : Int) :
    lookupTracker (deleteTracker m topic partition) topic partition = none := by
  unfold deleteTracker
  cases h : lookupTO m topic with
  | none => simp [lookupTracker, h]
  | some tos =>
      simp [lookupTracker, lookupTO_insertTO_self, lookupPT_deletePT_self]

/-! ## C1 -/

/-- **C1, counterexample.**  The claimed invariant
`lastCommitted ≤ highestProcessed ≤ lastConsumed` is not preserved by
`markAsProcessed`: from the state `InitializePartition` installs for a
fetched next-offset of `0` (all three fields `-1`), the call
`markAsProcessed 0` succeeds and leaves `highestProcessed = 0` strictly
above `lastConsumed = -1`. -/
theorem C1_counterexample :
    specOffsetOrder (initialTracker 0) ∧
    (markAsProcessed (initialTracker 0) 0).1 = none ∧
    ¬ specOffsetOrder (markAsProcessed (initialTracker 0) 0).2 := by
  decide

/-- **C1, amended.**  For every tracker,
`lastCommitted ≤ highestProcessed ≤ lastConsumed + 1` holds in the state
produced by `InitializePartition` and is preserved by `markAsProcessed`
and `commit` (for any committer result), and by the `MarkAsConsumed`
update whenever its offset is at least the current `lastConsumedOffset`
(consumption is monotone in the calling code). -/
theorem C1_tracker_invariant :
    (∀ nextOffset : Int, offsetOrderInv (initialTracker nextOffset)) ∧
    (∀ (pot : Tracker) (offset : Int), offsetOrderInv pot →
      offsetOrderInv (markAsProcessed pot offset).2) ∧
    (∀ (pot : Tracker) (committer : Int → Option CGError), offsetOrderInv pot →
      offsetOrderInv (commit pot committer).2.1) ∧
    (∀ (pot : Tracker) (offset : Int), offsetOrderInv pot →
      pot.lastConsumedOffset ≤ offset →
      offsetOrderInv (markAsConsumedTracker pot offset)) := by
  refine ⟨?_, ?_, ?_, ?_⟩
  · intro nextOffset
    simp only [offsetOrderInv, initialTracker]
    omega
  · intro pot offset h
    obtain ⟨w, hi, lc, lcm, d⟩ := pot
    unfold offsetOrderInv at h ⊢
    unfold markAsProcessed
    dsimp only at h ⊢
    split_ifs <;> dsimp only at * <;> omega
  · intro pot committer h
    obtain ⟨w, hi, lc, lcm, d⟩ := pot
    unfold offsetOrderInv at h ⊢
    unfold commit
    dsimp only at h ⊢
    split_ifs with hgt
    · cases hc : committer hi <;> dsimp only <;> omega
    · dsimp only; omega
  · intro pot offset h hmono
    obtain ⟨w, hi, lc, lcm, d⟩ := pot
    simp only [offsetOrderInv, markAsConsumedTracker] at h hmono ⊢
    omega

/-- **C1, witness for the amended theorem.**  Instantiates every conjunct
at concrete inputs. -/
theorem C1_witness :
    offsetOrderInv (initialTracker 7) ∧
    offsetOrderInv (markAsProcessed (initialTracker 7) 7).2 ∧
    offsetOrderInv (commit (initialTracker 7) (fun _ => none)).2.1 ∧
    offsetOrderInv (markAsConsumedTracker (initialTracker 7) 7) :=
  ⟨C1_tracker_invariant.1 7,
   C1_tracker_invariant.2.1 (initialTracker 7) 7 (C1_tracker_invariant.1 7),
   C1_tracker_invariant.2.2.1 (initialTracker 7) (fun _ => none)
     (C1_tracker_invariant.1 7),
   C1_tracker_invariant.2.2.2 (initialTracker 7) 7 (C1_tracker_invariant.1 7)
     (by decide)⟩

/-! ## C2 -/

/-- **C2.**  For every tracker state and every offset strictly above
`lastConsumedOffset + 1`, `markAsProcessed` returns `OffsetTooLarge` and
leaves every tracker field unchanged. -/
theorem C2_markAsProcessed_tooLarge (pot : Tracker) (offset : Int)
    (h : offset > pot.lastConsumedOffset + 1) :
    markAsProcessed pot offset = (some .offsetTooLarge, pot) := by
  simp [markAsProcessed, h]

/-- **C2, witness.** -/
theorem C2_witness :
    (5 : Int) > (initialTracker 0).lastConsumedOffset + 1 ∧
    markAsProcessed (initialTracker 0) 5 = (some .offsetTooLarge, initialTracker 0) :=
  ⟨by decide, C2_markAsProcessed_tooLarge (initialTracker 0) 5 (by decide)⟩

/-! ## C3 -/

/-- **C3.**  After a successful `markAsProcessed y`, a call
`markAsProcessed x` with `x ≤ y` returns `OffsetBackwards` and leaves
every tracker field unchanged. -/
theorem C3_markAsProcessed_backwards (pot pot1 : Tracker) (x y : Int)
    (hy : markAsProcessed pot y = (none, pot1)) (hxy : x ≤ y) :
    markAsProcessed pot1 x = (some .offsetBackwards, pot1) := by
  obtain ⟨w, hi, lc, lcm, d⟩ := pot
  simp only [markAsProcessed] at hy
  split_ifs at hy with h1 h2 h3 <;> simp only [Prod.mk.injEq] at hy
  · exact absurd hy.1 (by simp)
  · obtain ⟨-, rfl⟩ := hy
    simp only [markAsProcessed]
    split_ifs <;> first | rfl | omega
  · obtain ⟨-, rfl⟩ := hy
    simp only [markAsProcessed]
    split_ifs <;> first | rfl | omega
  · exact absurd hy.1 (by simp)

/-- **C3, witness.**  `markAsProcessed 0` succeeds from the initial state
for fetched next-offset `0`, and a second `markAsProcessed 0` returns
`OffsetBackwards` leaving the state unchanged. -/
theorem C3_witness :
    markAsProcessed (initialTracker 0) 0 = (none, ⟨0, 0, -1, -1, true⟩) ∧
    markAsProcessed ⟨0, 0, -1, -1, true⟩ 0 =
      (some .offsetBackwards, ⟨0, 0, -1, -1, true⟩) :=
  ⟨by decide,
   C3_markAsProcessed_backwards (initialTracker 0) ⟨0, 0, -1, -1, true⟩ 0 0
     (by decide) (by decide)⟩

/-! ## C4 -/

/-- **C4.**  `commit committerFn` invokes `committerFn` (with argument
`highestMarkedAsProcessedOffset`) if and only if
`highestMarkedAsProcessedOffset > lastCommittedOffset`; on committer
success it sets `lastCommittedOffset = highestMarkedAsProcessedOffset`;
when there is nothing new to commit it returns `NoOffsetToCommit` with the
state unchanged; when the committer returns an error, the state is
unchanged and that error is returned. -/
theorem C4_commit_behavior :
    (∀ (pot : Tracker) (committer : Int → Option CGError),
      (commit pot committer).2.2 =
        if pot.highestMarkedAsProcessedOffset > pot.lastCommittedOffset
        then [pot.highestMarkedAsProcessedOffset] else []) ∧
    (∀ (pot : Tracker) (committer : Int → Option CGError),
      pot.highestMarkedAsProcessedOffset > pot.lastCommittedOffset →
      committer pot.highestMarkedAsProcessedOffset = none →
      commit pot committer =
        (none, { pot with lastCommittedOffset := pot.highestMarkedAsProcessedOffset },
         [pot.highestMarkedAsProcessedOffset])) ∧
    (∀ (pot : Tracker) (committer : Int → Option CGError),
      ¬ pot.highestMarkedAsProcessedOffset > pot.lastCommittedOffset →
      commit pot committer = (some .noOffsetToCommit, pot, [])) ∧
    (∀ (pot : Tracker) (committer : Int → Option CGError) (e : CGError),
      pot.highestMarkedAsProcessedOffset > pot.lastCommittedOffset →
      committer pot.highestMarkedAsProcessedOffset = some e →
      commit pot committer = (some e, pot, [pot.highestMarkedAsProcessedOffset])) := by
  refine ⟨?_, ?_, ?_, ?_⟩
  · intro pot committer
    unfold commit
    split_ifs with hgt
    · cases hc : committer pot.highestMarkedAsProcessedOffset <;> simp [hc]
    · rfl
  · intro pot committer hgt hc
    simp [commit, hgt, hc]
  · intro pot committer hgt
    simp [commit, hgt]
  · intro pot committer e hgt hc
    simp [commit, hgt, hc]

/-- **C4, witness.**  A tracker with `highestProcessed = 5` above
`lastCommitted = 3` and an always-succeeding committer: the committer is
invoked with `5` and `lastCommittedOffset` becomes `5`. -/
theorem C4_witness :
    commit ⟨0, 5, 5, 3, false⟩ (fun _ => none) = (none, ⟨0, 5, 5, 5, false⟩, [5]) :=
  C4_commit_behavior.2.1 ⟨0, 5, 5, 3, false⟩ (fun _ => none) (by decide) rfl

/-! ## C5 -/

/-- **C5, counterexample.**  The committer installed by `commitOffset`
performs no coordination-service write at all when called with a negative
argument: at `o = -1` nothing is written, while the claim requires a write
of `o + 1 = 0`. -/
theorem C5_counterexample :
    (installedCommitter (fun _ => none) (-1)).2 = none ∧
    (installedCommitter (fun _ => none) (-1)).2 ≠ some ((-1 : Int) + 1) := by
  constructor <;> decide

/-- **C5, amended.**  For every call of the committer installed by
`commitOffset` with argument `o ≥ 0`, the value written to the
coordination service for that (topic, partition) is `o + 1` (and the
committer's result is the write's result); a call with `o < 0` performs no
write and succeeds. -/
theorem C5_committer_writes (write : Int → Option CGError) (o : Int) :
    (o ≥ 0 → installedCommitter write o = (write (o + 1), some (o + 1))) ∧
    (o < 0 → installedCommitter write o = (none, none)) := by
  constructor
  · intro h
    simp [installedCommitter, h]
  · intro h
    have hn : ¬ o ≥ 0 := by omega
    simp [installedCommitter, hn]

/-- **C5, witness for the amended theorem.**  At `o = 7` the write is `8`. -/
theorem C5_witness :
    installedCommitter (fun _ => none) 7 = (none, some 8) :=
  (C5_committer_writes (fun _ => none) 7).1 (by decide)

/-! ## C6 -/

/-- **C6.**  For every (topic, partition) and every successfully fetched
persisted next-offset (the kazoo client yields the sentinel `-1` when none
is stored), `InitializePartition` returns that value and installs a
tracker whose `highestMarkedAsProcessedOffset`, `lastCommittedOffset` and
`lastConsumedOffset` all equal `fetched - 1`, so that the first
`markAsProcessed` at offset `fetched` is accepted. -/
theorem C6_initializePartition (m : OffsetsMap) (topic : String)
    (partition : Int) (fetched : Int) :
    (InitializePartition m topic partition (.ok fetched)).1 = .ok fetched ∧
    lookupTracker (InitializePartition m topic partition (.ok fetched)).2
        topic partition = some (initialTracker fetched) ∧
    (initialTracker fetched).highestMarkedAsProcessedOffset = fetched - 1 ∧
    (initialTracker fetched).lastCommittedOffset = fetched - 1 ∧
    (initialTracker fetched).lastConsumedOffset = fetched - 1 ∧
    (markAsProcessed (initialTracker fetched) fetched).1 = none := by
  refine ⟨rfl, ?_, rfl, rfl, rfl, ?_⟩
  · simp [InitializePartition, lookupTracker_insertTracker_self]
  · unfold markAsProcessed initialTracker
    dsimp only
    split_ifs <;> first | rfl | omega

/-! ## C7 -/

/-- **C7, counterexample.**  On an initialized partition,
`FinalizePartition` with `lastDelivered = -1` performs no commit at all
(`committed = false`), while the claim requires a synchronous commit
before the tracker is removed. -/
theorem C7_counterexample :
    lookupTracker [("t", [(0, initialTracker 5)])] "t" 0 = some (initialTracker 5) ∧
    FinalizePartition [("t", [(0, initialTracker 5)])] "t" 0 (-1) false
        (fun _ => none)
      = some { result := none, offsets := [("t", [])], waited := false,
               committed := false } := by
  constructor <;> rfl

/-- The tracker state after `waitForOffset` does not depend on the outcome
of the timed race: only `waitingForOffset` is set before blocking. -/
theorem waitForOffset_snd (pot : Tracker) (offset : Int) (w : Bool) :
    (waitForOffset pot offset w).2 =
      if offset > pot.highestMarkedAsProcessedOffset
      then { pot with waitingForOffset := offset } else pot := by
  unfold waitForOffset
  split_ifs <;> rfl

/-- **C7, amended.**  For every initialized (topic, partition),
`FinalizePartition` enters the timed wait exactly when `lastDelivered ≥ 0`
and `lastDelivered` exceeds `highestMarkedAsProcessedOffset`; the result
does not depend on whether that wait times out (the code continues either
way); it then commits once more synchronously exactly when
`lastDelivered ≥ 0`; on a nil return the tracker has been removed from the
offset map, while on a commit failure the error is returned with the
tracker still in the map; when `lastDelivered < 0` the tracker is removed
without committing. -/
theorem C7_finalizePartition (m : OffsetsMap) (topic : String)
    (partition : Int) (lastOffset : Int) (waitReached : Bool)
    (write : Int → Option CGError) (pot : Tracker)
    (h : lookupTracker m topic partition = some pot) :
    ∃ o, FinalizePartition m topic partition lastOffset waitReached write = some o ∧
      (o.waited ↔ 0 ≤ lastOffset ∧ pot.highestMarkedAsProcessedOffset < lastOffset) ∧
      (o.committed ↔ 0 ≤ lastOffset) ∧
      (o.result = none → lookupTracker o.offsets topic partition = none) ∧
      (∀ e, o.result = some e → lookupTracker o.offsets topic partition ≠ none) ∧
      (∀ w2 : Bool, FinalizePartition m topic partition lastOffset w2 write
          = FinalizePartition m topic partition lastOffset waitReached write) := by
  unfold FinalizePartition
  simp only [h, waitForOffset_snd]
  split_ifs
  all_goals refine ⟨_, rfl, ?_, ?_, ?_, ?_, fun _ => trivial⟩
  all_goals first
    | (intro e he
       simp_all [lookupTracker_insertTracker_self])
    | (simp [lookupTracker_deleteTracker_self]
       done)
    | (simp
       omega)

/-- **C7, witness for the amended theorem.**  One initialized partition,
`lastDelivered = 3` with `highestMarkedAsProcessedOffset = 4`: no wait,
one synchronous commit, tracker removed. -/
theorem C7_witness :
    ∃ o, FinalizePartition [("t", [(0, initialTracker 5)])] "t" 0 3 false
        (fun _ => none) = some o ∧
      (o.waited ↔ 0 ≤ (3 : Int) ∧
        (initialTracker 5).highestMarkedAsProcessedOffset < 3) ∧
      (o.committed ↔ 0 ≤ (3 : Int)) ∧
      (o.result = none → lookupTracker o.offsets "t" 0 = none) ∧
      (∀ e, o.result = some e → lookupTracker o.offsets "t" 0 ≠ none) ∧
      (∀ w2 : Bool, FinalizePartition [("t", [(0, initialTracker 5)])] "t" 0 3 w2
          (fun _ => none)
        = FinalizePartition [("t", [(0, initialTracker 5)])] "t" 0 3 false
          (fun _ => none)) :=
  C7_finalizePartition [("t", [(0, initialTracker 5)])] "t" 0 3 false
    (fun _ => none) (initialTracker 5) rfl

/-! ## C8 -/

/-- **C8.**  After the committer task has been signalled and has exited,
`Close` returns `UncleanClose` if and only if some tracker remained in the
offsets map (some topic's partition map is non-empty, i.e.
`FinalizePartition` was not called for some owned partition); otherwise it
returns nil. -/
theorem C8_close_uncleanClose (m : OffsetsMap) :
    (zomClose m = some .uncleanClose ↔ ∃ e ∈ m, e.2 ≠ []) ∧
    (zomClose m = none ↔ ∀ e ∈ m, e.2 = []) := by
  unfold zomClose
  by_cases hm : m.any (fun e => e.2.length > 0)
  · rw [if_pos hm]
    simp only [List.any_eq_true, decide_eq_true_eq] at hm
    obtain ⟨e, he, hlen⟩ := hm
    constructor
    · simp only [true_iff]
      exact ⟨e, he, by intro hnil; rw [hnil] at hlen; simp at hlen⟩
    · constructor
      · intro hfalse
        simp at hfalse
      · intro hall
        exact absurd (hall e he) (by intro hnil; rw [hnil] at hlen; simp at hlen)
  · rw [if_neg hm]
    simp only [List.any_eq_true, decide_eq_true_eq, not_exists, not_and] at hm
    constructor
    · constructor
      · intro hfalse
        simp at hfalse
      · intro ⟨e, he, hne⟩
        exact absurd (hm e he) (by simpa [List.length_pos] using hne)
    · simp only [true_iff]
      intro e he
      have hgt := hm e he
      have hlen : e.2.length = 0 := by omega
      exact List.length_eq_zero.mp hlen

/-- **C8, witness.**  A map with one remaining tracker yields
`UncleanClose`; the empty map yields nil. -/
theorem C8_witness :
    zomClose [("t", [(0, initialTracker 5)])] = some .uncleanClose ∧
    zomClose ([] : OffsetsMap) = none :=
  ⟨(C8_close_uncleanClose [("t", [(0, initialTracker 5)])]).1.mpr
      ⟨("t", [(0, initialTracker 5)]), by decide, by decide⟩,
   (C8_close_uncleanClose ([] : OffsetsMap)).2.mpr (by decide)⟩

/-! ## C9 -/

/-- **C9.**  When opening the broker stream fails with `OffsetOutOfRange`,
`consumePartition` re-opens exactly once at the offset chosen by the
configured initial policy (`OffsetOldest` maps to the oldest offset, any
other policy to the newest), succeeding exactly when that retry succeeds;
any other open error is terminal without a retry; a first success opens
directly. -/
theorem C9_open_stream_retry (initial : Int)
    (openRes : Int → Option OpenError) (startOffset : Int) :
    (openRes startOffset = some .offsetOutOfRange →
      openPartitionStream initial openRes startOffset =
        { attempts := [startOffset,
            if initial = OffsetOldest then OffsetOldest else OffsetNewest],
          ok := (openRes (if initial = OffsetOldest then OffsetOldest
                          else OffsetNewest)).isNone }) ∧
    (∀ c, openRes startOffset = some (.other c) →
      openPartitionStream initial openRes startOffset =
        { attempts := [startOffset], ok := false }) ∧
    (openRes startOffset = none →
      openPartitionStream initial openRes startOffset =
        { attempts := [startOffset], ok := true }) := by
  refine ⟨?_, ?_, ?_⟩
  · intro h
    unfold openPartitionStream
    rw [h]
    cases hr : openRes (if initial = OffsetOldest then OffsetOldest
                        else OffsetNewest) <;> simp [hr]
  · intro c h
    unfold openPartitionStream
    rw [h]
  · intro h
    unfold openPartitionStream
    rw [h]

/-- **C9, witness.**  Policy `Oldest`, broker rejecting offset `10` as out
of range and accepting the oldest offset: exactly one retry at
`OffsetOldest`, which succeeds. -/
theorem C9_witness :
    openPartitionStream OffsetOldest
        (fun o => if o = 10 then some .offsetOutOfRange else none) 10
      = { attempts := [10, OffsetOldest], ok := true } :=
  (C9_open_stream_retry OffsetOldest
    (fun o => if o = 10 then some .offsetOutOfRange else none) 10).1 (by decide)

/-! ## C10 -/

/-- **C10.**  In `ConsumerGroup.Close`, the shutdown error is reassigned
unconditionally: the first run of the body returns exactly the Sarama
consumer's close result, so whenever `Deregister` fails and the consumer's
`Close` succeeds, the deregistration error is discarded and nil is
returned. -/
theorem C10_close_overwrites_deregister_error :
    ∀ (offsetManagerCloseErr deregisterErr consumerCloseErr : Option CGError)
      (e : CGError),
      cgClose false offsetManagerCloseErr deregisterErr consumerCloseErr
        = consumerCloseErr ∧
      cgClose false offsetManagerCloseErr (some e) none = none :=
  fun _ _ _ _ => ⟨rfl, rfl⟩

end ConsumerGroupCG
